import Mathlib

/-!
Shallow embedding of the `lomocoin/neo-go-sdk` NEO JSON-RPC client
(package `neo`: `request.go` and the client operations file) and proofs
about its request pipeline, node selection and address validation.

The HTTP layer, the JSON (de)serialisation of response bytes and the
behaviour of the remote node are abstracted into an explicit environment
(`RequestEnv`): the embedding of `executeRequest` consumes the outcome of
each effectful step from that environment, in the exact order the Go code
performs the steps.
-/

/-- Embeds the inner `Error` struct of `response.Error`:
`struct { Code int; Message string }`. -/
structure ErrorEnvelope where
  code : Int
  message : String
deriving DecidableEq, Repr

/-- Embeds `response.Error` (file `neo/models/response`, shipped alongside
`request.go`): `ID int, JSONRPC string, Error {Code int, Message string}`. -/
structure RespError where
  id : Int
  jsonrpc : String
  error : ErrorEnvelope
deriving DecidableEq, Repr

/-- A positional JSON-RPC parameter as used by the client operations
(`[]interface{}` values are strings or integers in every call site). -/
inductive RpcParam where
  | str (s : String)
  | int (n : Int)
deriving DecidableEq, Repr

/-- Modelled from the spec: the request-body builder
(`request.NewBody` / `request.NewBodyWithParameters`, not part of the
sources at hand). The spec states request bodies are valid JSON-RPC 2.0
envelopes carrying the method name and positional parameters; the envelope
is modelled structurally with its `jsonrpc` version field. -/
structure RequestBody where
  jsonrpc : String
  method : String
  params : List RpcParam
deriving DecidableEq, Repr

/-- Modelled from the spec: `request.NewBody(method)` builds a JSON-RPC 2.0
envelope with the method and no parameters. -/
def newBody (method : String) : RequestBody :=
  { jsonrpc := "2.0", method := method, params := [] }

/-- Modelled from the spec: `request.NewBodyWithParameters(method, params)`
builds a JSON-RPC 2.0 envelope with the method and positional parameters. -/
def newBodyWithParameters (method : String) (params : List RpcParam) : RequestBody :=
  { jsonrpc := "2.0", method := method, params := params }

/-- The body `executeRequest` builds: `request.NewBody(method)` when
`bodyParameters == nil`, `request.NewBodyWithParameters` otherwise. -/
def builtBody (method : String) : Option (List RpcParam) → RequestBody
  | none => newBody method
  | some ps => newBodyWithParameters method ps

/-- Outcome of unmarshalling the response bytes: `json.Unmarshal` into the
model type of the operation and into `resp.Error`, each possibly failing. -/
structure ParsedBody (α : Type) where
  modelParse : Except String α
  errorParse : Except String RespError

/-- Outcome of one `client.Do(request)` call: a transport error, or an HTTP
response with a status code whose body read (`ioutil.ReadAll`) either fails
or yields bytes summarised by their two unmarshal outcomes. -/
inductive TransportOutcome (α : Type) where
  | doError (e : String)
  | httpResponse (statusCode : Int) (readResult : Except String (ParsedBody α))

/-- Environment for one `executeRequest` call: the outcome of
`http.NewRequest`, and, for each request body and each successive `Do`
invocation (indexed by `Nat`), the transport outcome. -/
structure RequestEnv (α : Type) where
  newRequestResult : Except String Unit
  transport : RequestBody → Nat → TransportOutcome α

/-- Embeds `executeRequest` (`neo/request.go` lines 15-73). The Go function
reports errors through its return value and fills the model through a
pointer; here success carries the unmarshalled model. Steps in source
order: build body, `http.NewRequest`, `client.Do`, status check,
`ReadAll`, unmarshal model, unmarshal `resp.Error`, error-envelope check. -/
def executeRequest (α : Type) (method : String) (bodyParameters : Option (List RpcParam))
    (nodeURI : String) (env : RequestEnv α) : Except String α :=
  let body := builtBody method bodyParameters
  match env.newRequestResult with
  | .error e => .error e
  | .ok _ =>
    match env.transport body 0 with
    | .doError e => .error e
    | .httpResponse statusCode readResult =>
      if statusCode ≠ 200 then
        .error ("non-200 status code returned from NEO node, got: \x27"
          ++ toString statusCode ++ "\x27")
      else
        match readResult with
        | .error e => .error e
        | .ok parsed =>
          match parsed.modelParse with
          | .error e => .error e
          | .ok model =>
            match parsed.errorParse with
            | .error e => .error e
            | .ok errorResp =>
              if errorResp.error.message ≠ "" then
                .error ("error code: " ++ toString errorResp.error.code
                  ++ ", error message: " ++ errorResp.error.message)
              else
                .ok model

/-- A JSON value as stored in a Go `map[string]interface{}` after
`json.Unmarshal`: null, boolean, number, or string (the shapes the
`ValidateAddress` type assertions distinguish). -/
inductive JValue where
  | null
  | bool (b : Bool)
  | num (n : Int)
  | str (s : String)
deriving DecidableEq, Repr

/-- Modelled from the spec: `models.Block`, a flat record mirroring the
block result; no claim inspects its fields, which are represented by the
block hash. -/
structure ModelsBlock where
  hash : String
deriving DecidableEq, Repr

/-- Modelled from the spec: `models.Transaction`, a flat record mirroring
the transaction result; only its `ID` field is read by a client operation
(`SendToAddress`). -/
structure ModelsTransaction where
  ID : String
deriving DecidableEq, Repr

/-- Modelled from the spec: `models.Vout`, a flat record mirroring the
transaction-output result; no claim inspects its fields. -/
structure ModelsVout where
  value : String
deriving DecidableEq, Repr

/-- Embeds `response.Block` (`neo/models/response/block.go`):
`ID int, JSONRPC string, Result models.Block`. -/
structure RespBlock where
  id : Int
  jsonrpc : String
  result : ModelsBlock
deriving DecidableEq, Repr

/-- Modelled from the spec: `response.String`, the envelope whose result
field is a string. -/
structure RespString where
  id : Int
  jsonrpc : String
  result : String
deriving DecidableEq, Repr

/-- Modelled from the spec: `response.Integer`, the envelope whose result
field is an integer (`int64`). -/
structure RespInteger where
  id : Int
  jsonrpc : String
  result : Int
deriving DecidableEq, Repr

/-- Modelled from the spec: `response.StringArray`, the envelope whose
result field is a string array. -/
structure RespStringArray where
  id : Int
  jsonrpc : String
  result : List String
deriving DecidableEq, Repr

/-- Modelled from the spec: `response.StringMap`, the envelope whose result
field is a string-keyed map (`map[string]interface{}`). -/
structure RespStringMap where
  id : Int
  jsonrpc : String
  result : List (String × JValue)
deriving DecidableEq, Repr

/-- Modelled from the spec: `response.Transaction`, the envelope whose
result field is a transaction record. -/
structure RespTransaction where
  id : Int
  jsonrpc : String
  result : ModelsTransaction
deriving DecidableEq, Repr

/-- Modelled from the spec: `response.Vout`, the envelope whose result
field is a transaction-output record. -/
structure RespVout where
  id : Int
  jsonrpc : String
  result : ModelsVout
deriving DecidableEq, Repr

/-- Embeds the anonymous result struct of `GetBalance`:
`{ Balance string; Confirmed string }`. -/
structure BalanceResult where
  balance : String
  confirmed : String
deriving DecidableEq, Repr

/-- Embeds the anonymous response struct of `GetBalance`: the embedded
`response.StringMap` envelope with its `Result` overridden by the
balance record. -/
structure RespBalance where
  id : Int
  jsonrpc : String
  result : BalanceResult
deriving DecidableEq, Repr

/-- Embeds `Client` (`Node string; nodeURIs []string`). -/
structure Client where
  Node : String
  nodeURIs : List String
deriving DecidableEq, Repr

/-- Embeds `NewClient`: a client with a single node URI. -/
def NewClient (nodeURI : String) : Client :=
  { Node := nodeURI, nodeURIs := [nodeURI] }

/-- Lower-case hex digit, as produced by Go `encoding/hex`. -/
def hexDigitChar (n : Nat) : Char :=
  if n < 10 then Char.ofNat (48 + n) else Char.ofNat (87 + n)

/-- Hex encoding of one byte (two lower-case digits). -/
def hexEncodeByte (b : UInt8) : String :=
  String.mk [hexDigitChar (b.toNat / 16), hexDigitChar (b.toNat % 16)]

/-- Embeds `hex.EncodeToString([]byte(s))`: hex of the UTF-8 bytes. -/
def hexEncodeToString (s : String) : String :=
  String.join (s.toUTF8.toList.map hexEncodeByte)

/-- Embeds `Client.GetBestBlockHash`. -/
def Client.GetBestBlockHash (c : Client) (env : RequestEnv RespString) :
    Except String String :=
  match executeRequest RespString "getbestblockhash" none c.Node env with
  | .error e => .error e
  | .ok resp => .ok resp.result

/-- Embeds `Client.GetBlockByHash`: method `getblock`, parameters `[hash, 1]`. -/
def Client.GetBlockByHash (c : Client) (hash : String) (env : RequestEnv RespBlock) :
    Except String ModelsBlock :=
  match executeRequest RespBlock "getblock" (some [.str hash, .int 1]) c.Node env with
  | .error e => .error e
  | .ok resp => .ok resp.result

/-- Embeds `Client.GetBlockByIndex`: method `getblock`, parameters `[index, 1]`. -/
def Client.GetBlockByIndex (c : Client) (index : Int) (env : RequestEnv RespBlock) :
    Except String ModelsBlock :=
  match executeRequest RespBlock "getblock" (some [.int index, .int 1]) c.Node env with
  | .error e => .error e
  | .ok resp => .ok resp.result

/-- Embeds `Client.GetBlockCount`: method `getblockcount`, no parameters. -/
def Client.GetBlockCount (c : Client) (env : RequestEnv RespInteger) :
    Except String Int :=
  match executeRequest RespInteger "getblockcount" none c.Node env with
  | .error e => .error e
  | .ok resp => .ok resp.result

/-- Embeds `Client.GetBlockHash`: method `getblockhash`, parameters `[index]`. -/
def Client.GetBlockHash (c : Client) (index : Int) (env : RequestEnv RespString) :
    Except String String :=
  match executeRequest RespString "getblockhash" (some [.int index]) c.Node env with
  | .error e => .error e
  | .ok resp => .ok resp.result

/-- Embeds `Client.GetConnectionCount`: method `getconnectioncount`, no parameters. -/
def Client.GetConnectionCount (c : Client) (env : RequestEnv RespInteger) :
    Except String Int :=
  match executeRequest RespInteger "getconnectioncount" none c.Node env with
  | .error e => .error e
  | .ok resp => .ok resp.result

/-- Embeds `Client.GetStorage`: method `getstorage`, parameters
`[scriptHash, hex(storageKey)]`. -/
def Client.GetStorage (c : Client) (scriptHash storageKey : String)
    (env : RequestEnv RespString) : Except String String :=
  match executeRequest RespString "getstorage"
      (some [.str scriptHash, .str (hexEncodeToString storageKey)]) c.Node env with
  | .error e => .error e
  | .ok resp => .ok resp.result

/-- Embeds `Client.GetTransaction`: method `getrawtransaction`, parameters
`[hash, 1]`. -/
def Client.GetTransaction (c : Client) (hash : String)
    (env : RequestEnv RespTransaction) : Except String ModelsTransaction :=
  match executeRequest RespTransaction "getrawtransaction"
      (some [.str hash, .int 1]) c.Node env with
  | .error e => .error e
  | .ok resp => .ok resp.result

/-- Embeds `Client.GetTransactionOutput`: method `gettxout`, parameters
`[hash, index]`. -/
def Client.GetTransactionOutput (c : Client) (hash : String) (index : Int)
    (env : RequestEnv RespVout) : Except String ModelsVout :=
  match executeRequest RespVout "gettxout" (some [.str hash, .int index]) c.Node env with
  | .error e => .error e
  | .ok resp => .ok resp.result

/-- Embeds `Client.GetUnconfirmedTransactions`: method `getrawmempool`,
no parameters. -/
def Client.GetUnconfirmedTransactions (c : Client) (env : RequestEnv RespStringArray) :
    Except String (List String) :=
  match executeRequest RespStringArray "getrawmempool" none c.Node env with
  | .error e => .error e
  | .ok resp => .ok resp.result

/-- Embeds `Client.ValidateAddress`: method `validateaddress`, parameters
`[address]`; checks presence and type of the `address` and `isvalid`
entries of the result map before comparing. -/
def Client.ValidateAddress (c : Client) (address : String)
    (env : RequestEnv RespStringMap) : Except String Bool :=
  match executeRequest RespStringMap "validateaddress" (some [.str address]) c.Node env with
  | .error e => .error e
  | .ok resp =>
    match resp.result.lookup "address" with
    | none => .ok false
    | some addressValue =>
      match addressValue with
      | .str returnedAddress =>
        match resp.result.lookup "isvalid" with
        | none => .ok false
        | some isvalidValue =>
          match isvalidValue with
          | .bool valid =>
            if address = returnedAddress ∧ valid = true then .ok true else .ok false
          | _ => .ok false
      | _ => .ok false

/-- Embeds `Client.GetBalance`: method `getbalance`, parameters `[assetID]`;
returns the balance and confirmed strings. -/
def Client.GetBalance (c : Client) (assetID : String) (env : RequestEnv RespBalance) :
    Except String (String × String) :=
  match executeRequest RespBalance "getbalance" (some [.str assetID]) c.Node env with
  | .error e => .error e
  | .ok resp => .ok (resp.result.balance, resp.result.confirmed)

/-- Embeds `Client.GetNewAddress`: method `getnewaddress`, no parameters;
the anonymous response struct has the shape of `response.String`. -/
def Client.GetNewAddress (c : Client) (env : RequestEnv RespString) :
    Except String String :=
  match executeRequest RespString "getnewaddress" none c.Node env with
  | .error e => .error e
  | .ok resp => .ok resp.result

/-- Embeds `Client.SendToAddress`: method `sendtoaddress`, parameters
`[assetID, toAddress, amount]`; returns the transaction ID. -/
def Client.SendToAddress (c : Client) (assetID toAddress : String) (amount : RpcParam)
    (env : RequestEnv RespTransaction) : Except String String :=
  match executeRequest RespTransaction "sendtoaddress"
      (some [.str assetID, .str toAddress, amount]) c.Node env with
  | .error e => .error e
  | .ok resp => .ok resp.result.ID

/-- Result of `SelectBestNode` on a client: the (possibly updated) client,
the returned error, and the node URIs that were queried for their block
count, in query order. -/
structure SelectResult where
  client : Client
  err : Option String
  queried : List String
deriving DecidableEq, Repr

/-- Embeds the loop of `SelectBestNode` (lines 203-215): for each URI query
the block count, skip unreachable nodes (`continue`), and keep the URI
whose count strictly exceeds the running highest. Also records the URIs
queried, in order. -/
def selectLoop (query : String → Except String Int) :
    List String → String → Int → (String × Int) × List String
  | [], bestNode, highestBlock => ((bestNode, highestBlock), [])
  | uri :: rest, bestNode, highestBlock =>
    let step :=
      match query uri with
      | .error _ => (bestNode, highestBlock)
      | .ok blockCount =>
        if blockCount > highestBlock then (uri, blockCount) else (bestNode, highestBlock)
    let r := selectLoop query rest step.1 step.2
    (r.1, uri :: r.2)

/-- Embeds `Client.SelectBestNode` over an abstract per-URI query function
(the outcome of `NewClient(uri).GetBlockCount()`): with exactly one URI it
is used directly; otherwise the loop runs with `bestNode = ""` and
`highestBlock = 0`, and an empty `bestNode` at the end is the error case,
leaving `Node` unchanged. -/
def selectBestNodeAux (query : String → Except String Int) (c : Client) : SelectResult :=
  match c.nodeURIs with
  | [uri] => { client := { c with Node := uri }, err := none, queried := [] }
  | uris =>
    let r := selectLoop query uris "" 0
    if r.1.1 = "" then
      { client := c, err := some "Unable to communicate with any nodes", queried := r.2 }
    else
      { client := { c with Node := r.1.1 }, err := none, queried := r.2 }

/-- The query one loop iteration of `SelectBestNode` performs for one URI:
`NewClient(nodeURI).GetBlockCount()` in the per-URI environment. -/
def nodeQuery (envOf : String → RequestEnv RespInteger) (nodeURI : String) :
    Except String Int :=
  (NewClient nodeURI).GetBlockCount (envOf nodeURI)

/-- Embeds `Client.SelectBestNode` (lines 194-223): each iteration builds
`NewClient(nodeURI)` and calls its `GetBlockCount` in the per-URI
environment. -/
def Client.SelectBestNode (c : Client) (envOf : String → RequestEnv RespInteger) :
    SelectResult :=
  selectBestNodeAux (nodeQuery envOf) c

/-- Embeds `NewClientUsingMultipleNodes` (lines 33-44): rejects an empty
URI list, otherwise builds a client with zero-valued `Node` (the Go zero
string), runs `SelectBestNode` discarding its error, and returns the
client. -/
def NewClientUsingMultipleNodes (nodeURIs : List String)
    (envOf : String → RequestEnv RespInteger) : Except String Client :=
  if nodeURIs.length = 0 then
    .error "Length of \x27nodeURIs\x27 argument must be greater than 0"
  else
    .ok (Client.SelectBestNode { Node := "", nodeURIs := nodeURIs } envOf).client

/-- An environment whose node replies 200 with a body that unmarshals into
`model` and carries an empty error envelope. -/
def okEnv (α : Type) (model : α) : RequestEnv α :=
  { newRequestResult := .ok (),
    transport := fun _ _ => .httpResponse 200
      (.ok { modelParse := .ok model, errorParse := .ok ⟨1, "2.0", ⟨0, ""⟩⟩ }) }

/-- An environment whose node replies 200 with a body that unmarshals into
`model` and carries the given error envelope. -/
def envelopeEnv (α : Type) (model : α) (envl : ErrorEnvelope) : RequestEnv α :=
  { newRequestResult := .ok (),
    transport := fun _ _ => .httpResponse 200
      (.ok { modelParse := .ok model, errorParse := .ok ⟨1, "2.0", envl⟩ }) }

/-- An environment whose transport (`client.Do`) fails. -/
def doErrorEnv (α : Type) (e : String) : RequestEnv α :=
  { newRequestResult := .ok (), transport := fun _ _ => .doError e }

/-- An environment whose node replies with the given status code and whose
body is never read. -/
def badStatusEnv (α : Type) (statusCode : Int) : RequestEnv α :=
  { newRequestResult := .ok (),
    transport := fun _ _ => .httpResponse statusCode (.error "body not read") }

/-- An environment whose node replies 200 but whose body fails to unmarshal
into the model of the operation, while the `resp.Error` unmarshal yields an
empty envelope. -/
def modelParseFailEnv (α : Type) (e : String) : RequestEnv α :=
  { newRequestResult := .ok (),
    transport := fun _ _ => .httpResponse 200
      (.ok { modelParse := .error e, errorParse := .ok ⟨0, "", ⟨0, ""⟩⟩ }) }

/-- An integer-result environment reporting block count `n`. -/
def intEnv (n : Int) : RequestEnv RespInteger :=
  okEnv RespInteger ⟨1, "2.0", n⟩

lemma selectLoop_queried (query : String → Except String Int) :
    ∀ (uris : List String) (b : String) (h : Int),
      (selectLoop query uris b h).2 = uris := by
  intro uris
  induction uris with
  | nil => intro b h; rfl
  | cons uri rest ih =>
    intro b h
    simp only [selectLoop]
    cases query uri with
    | error e => simp [ih]
    | ok bc => by_cases hbc : bc > h <;> simp [hbc, ih]

lemma selectLoop_fst_append (query : String → Except String Int) :
    ∀ (xs ys : List String) (b : String) (h : Int),
      (selectLoop query (xs ++ ys) b h).1 =
        (selectLoop query ys (selectLoop query xs b h).1.1
          (selectLoop query xs b h).1.2).1 := by
  intro xs
  induction xs with
  | nil => intro ys b h; rfl
  | cons x rest ih =>
    intro ys b h
    simp only [List.cons_append, selectLoop]
    cases query x with
    | error e => simp [ih]
    | ok bc => by_cases hbc : bc > h <;> simp [hbc, ih]

lemma selectLoop_high_lt (query : String → Except String Int) :
    ∀ (xs : List String) (b : String) (h m : Int),
      (∀ x ∈ xs, ∀ v, query x = .ok v → v < m) → h < m →
      (selectLoop query xs b h).1.2 < m := by
  intro xs
  induction xs with
  | nil => intro b h m _ hh; exact hh
  | cons x rest ih =>
    intro b h m hall hh
    simp only [selectLoop]
    cases hq : query x with
    | error e =>
      simpa using ih b h m (fun y hy v hv => hall y (List.mem_cons_of_mem x hy) v hv) hh
    | ok bc =>
      by_cases hbc : bc > h
      · have hbcm : bc < m := hall x (List.mem_cons_self x rest) bc hq
        simpa [hbc] using ih x bc m (fun y hy v hv => hall y (List.mem_cons_of_mem x hy) v hv) hbcm
      · simpa [hbc] using ih b h m (fun y hy v hv => hall y (List.mem_cons_of_mem x hy) v hv) hh

lemma selectLoop_no_change (query : String → Except String Int) :
    ∀ (ys : List String) (b : String) (h : Int),
      (∀ y ∈ ys, ∀ v, query y = .ok v → v ≤ h) →
      (selectLoop query ys b h).1 = (b, h) := by
  intro ys
  induction ys with
  | nil => intro b h _; rfl
  | cons y rest ih =>
    intro b h hall
    simp only [selectLoop]
    cases hq : query y with
    | error e =>
      simpa using ih b h (fun z hz v hv => hall z (List.mem_cons_of_mem y hz) v hv)
    | ok bc =>
      have hle : bc ≤ h := hall y (List.mem_cons_self y rest) bc hq
      have hbc : ¬ bc > h := by omega
      simpa [hbc] using ih b h (fun z hz v hv => hall z (List.mem_cons_of_mem y hz) v hv)

lemma selectLoop_selected (query : String → Except String Int) (u : String) :
    ∀ (xs : List String) (b : String) (h : Int),
      (selectLoop query xs b h).1.1 = u →
      u = b ∨ (u ∈ xs ∧ ∃ v, query u = .ok v ∧ h < v) := by
  intro xs
  induction xs with
  | nil => intro b h hu; exact Or.inl hu.symm
  | cons x rest ih =>
    intro b h hu
    simp only [selectLoop] at hu
    cases hq : query x with
    | error e =>
      rw [hq] at hu
      rcases ih b h (by simpa using hu) with hb | ⟨hmem, v, hv, hlt⟩
      · exact Or.inl hb
      · exact Or.inr ⟨List.mem_cons_of_mem x hmem, v, hv, hlt⟩
    | ok bc =>
      rw [hq] at hu
      by_cases hbc : bc > h
      · simp only [hbc, if_pos] at hu
        rcases ih x bc (by simpa using hu) with hb | ⟨hmem, v, hv, hlt⟩
        · rw [hb]
          exact Or.inr ⟨List.mem_cons_self x rest, bc, hq, hbc⟩
        · exact Or.inr ⟨List.mem_cons_of_mem x hmem, v, hv, by omega⟩
      · simp only [hbc, if_neg, if_false] at hu
        rcases ih b h (by simpa using hu) with hb | ⟨hmem, v, hv, hlt⟩
        · exact Or.inl hb
        · exact Or.inr ⟨List.mem_cons_of_mem x hmem, v, hv, hlt⟩

lemma two_le_length_shape (l : List String) (h : 2 ≤ l.length) :
    ∃ x y rest, l = x :: y :: rest := by
  match l with
  | [] => simp at h
  | [x] => simp at h
  | x :: y :: rest => exact ⟨x, y, rest, rfl⟩

lemma selectBestNodeAux_single (query : String → Except String Int) (node u : String) :
    selectBestNodeAux query ⟨node, [u]⟩ = ⟨⟨u, [u]⟩, none, []⟩ := rfl

lemma selectBestNodeAux_multi (query : String → Except String Int) (node x y : String)
    (rest : List String) :
    selectBestNodeAux query ⟨node, x :: y :: rest⟩ =
      (if (selectLoop query (x :: y :: rest) "" 0).1.1 = "" then
        ⟨⟨node, x :: y :: rest⟩, some "Unable to communicate with any nodes",
          (selectLoop query (x :: y :: rest) "" 0).2⟩
      else
        ⟨⟨(selectLoop query (x :: y :: rest) "" 0).1.1, x :: y :: rest⟩, none,
          (selectLoop query (x :: y :: rest) "" 0).2⟩) := rfl

lemma selectBestNodeAux_queried (query : String → Except String Int) (node : String)
    (uris : List String) (hlen : 2 ≤ uris.length) :
    (selectBestNodeAux query ⟨node, uris⟩).queried = uris := by
  obtain ⟨x, y, rest, hshape⟩ := two_le_length_shape uris hlen
  subst hshape
  rw [selectBestNodeAux_multi]
  by_cases hb : (selectLoop query (x :: y :: rest) "" 0).1.1 = "" <;>
    simp [hb, selectLoop_queried]

lemma selectLoop_step_select (query : String → Except String Int) (u : String)
    (ys : List String) (b : String) (h m : Int) (hq : query u = .ok m) (hm : h < m) :
    (selectLoop query (u :: ys) b h).1 = (selectLoop query ys u m).1 := by
  simp [selectLoop, hq, hm]

lemma selectLoop_earliest (query : String → Except String Int) (xs ys : List String)
    (u : String) (m : Int) (hq : query u = .ok m) (hm : 0 < m)
    (hxs : ∀ x ∈ xs, ∀ v, query x = .ok v → v < m)
    (hys : ∀ y ∈ ys, ∀ v, query y = .ok v → v ≤ m) :
    (selectLoop query (xs ++ u :: ys) "" 0).1 = (u, m) := by
  rw [selectLoop_fst_append]
  have hlt : (selectLoop query xs "" 0).1.2 < m := selectLoop_high_lt query xs "" 0 m hxs hm
  rw [selectLoop_step_select query u ys _ _ m hq hlt]
  exact selectLoop_no_change query ys u m hys

lemma selectBestNodeAux_earliest (query : String → Except String Int) (node : String)
    (uris xs ys : List String) (u : String) (m : Int)
    (hlen : 2 ≤ uris.length) (hdecomp : uris = xs ++ u :: ys)
    (hq : query u = .ok m) (hm : 0 < m) (hu : u ≠ "")
    (hxs : ∀ x ∈ xs, ∀ v, query x = .ok v → v < m)
    (hys : ∀ y ∈ ys, ∀ v, query y = .ok v → v ≤ m) :
    selectBestNodeAux query ⟨node, uris⟩ = ⟨⟨u, uris⟩, none, uris⟩ := by
  obtain ⟨x, y, rest, hshape⟩ := two_le_length_shape uris hlen
  have hloop : (selectLoop query uris "" 0).1 = (u, m) := by
    rw [hdecomp]; exact selectLoop_earliest query xs ys u m hq hm hxs hys
  rw [hshape] at hloop ⊢
  rw [selectBestNodeAux_multi]
  have hfst : (selectLoop query (x :: y :: rest) "" 0).1.1 = u := by rw [hloop]
  rw [if_neg (by rw [hfst]; exact hu)]
  rw [hfst, selectLoop_queried]

lemma selectBestNodeAux_all_low (query : String → Except String Int) (node : String)
    (uris : List String) (hlen : 2 ≤ uris.length)
    (hall : ∀ x ∈ uris, ∀ v, query x = .ok v → v ≤ 0) :
    selectBestNodeAux query ⟨node, uris⟩ =
      ⟨⟨node, uris⟩, some "Unable to communicate with any nodes", uris⟩ := by
  obtain ⟨x, y, rest, hshape⟩ := two_le_length_shape uris hlen
  subst hshape
  have hbest : (selectLoop query (x :: y :: rest) "" 0).1.1 = "" := by
    rcases selectLoop_selected query ((selectLoop query (x :: y :: rest) "" 0).1.1)
        (x :: y :: rest) "" 0 rfl with hb | ⟨hmem, v, hv, hlt⟩
    · exact hb
    · exact absurd (hall _ hmem v hv) (by omega)
  rw [selectBestNodeAux_multi, if_pos hbest, selectLoop_queried]

lemma selectBestNodeAux_low_not_selected (query : String → Except String Int)
    (node u : String) (uris : List String) (b : Int)
    (hlen : 2 ≤ uris.length) (hq : query u = .ok b) (hb : b ≤ 0)
    (herr : (selectBestNodeAux query ⟨node, uris⟩).err = none) :
    (selectBestNodeAux query ⟨node, uris⟩).client.Node ≠ u := by
  obtain ⟨x, y, rest, hshape⟩ := two_le_length_shape uris hlen
  subst hshape
  rw [selectBestNodeAux_multi] at herr ⊢
  by_cases hbest : (selectLoop query (x :: y :: rest) "" 0).1.1 = ""
  · rw [if_pos hbest] at herr; simp at herr
  · rw [if_neg hbest]
    intro hcontra
    simp only at hcontra
    rcases selectLoop_selected query u (x :: y :: rest) "" 0 hcontra with h0 | ⟨_, v, hv, hlt⟩
    · rw [hcontra] at hbest; exact hbest h0
    · rw [hq] at hv
      cases hv
      omega

/-- C3, as stated, is false: `executeRequest` can return an error although
neither the transport failed, nor the status differed from 200, nor the
JSON-RPC error envelope was non-empty — here the response body fails to
unmarshal into the model of the operation while the error envelope is empty,
and the unmarshal error is returned. -/
theorem C3_unmarshal_error_counterexample :
    executeRequest RespInteger "getblockcount" none "http://node"
        (modelParseFailEnv RespInteger "unexpected end of JSON input")
      = .error "unexpected end of JSON input"
    ∧ (modelParseFailEnv RespInteger "unexpected end of JSON input").transport
        (builtBody "getblockcount" none) 0
      = .httpResponse 200
          (.ok ⟨.error "unexpected end of JSON input", .ok ⟨0, "", ⟨0, ""⟩⟩⟩) :=
  ⟨rfl, rfl⟩

/-- C3 (amended): `executeRequest` returns an error exactly when one of
these fails — request construction, transport, non-200 HTTP status,
response-body read, JSON unmarshal of the model or of the error envelope,
or a non-empty error message in the JSON-RPC error envelope; it returns
the error of the first failing step in pipeline order, succeeds when every
step passes, and consults the transport only for its first (and only)
`Do` invocation, i.e. it performs no retries. -/
theorem C3_first_error_no_retries :
    ∀ (α : Type) (method : String) (ps : Option (List RpcParam)) (uri : String),
      (∀ (t : RequestBody → Nat → TransportOutcome α) (e : String),
        executeRequest α method ps uri ⟨.error e, t⟩ = .error e)
    ∧ (∀ (t : RequestBody → Nat → TransportOutcome α) (e : String),
        t (builtBody method ps) 0 = .doError e →
        executeRequest α method ps uri ⟨.ok (), t⟩ = .error e)
    ∧ (∀ (t : RequestBody → Nat → TransportOutcome α) (s : Int)
          (r : Except String (ParsedBody α)),
        t (builtBody method ps) 0 = .httpResponse s r → s ≠ 200 →
        executeRequest α method ps uri ⟨.ok (), t⟩ =
          .error ("non-200 status code returned from NEO node, got: \x27"
            ++ toString s ++ "\x27"))
    ∧ (∀ (t : RequestBody → Nat → TransportOutcome α) (e : String),
        t (builtBody method ps) 0 = .httpResponse 200 (.error e) →
        executeRequest α method ps uri ⟨.ok (), t⟩ = .error e)
    ∧ (∀ (t : RequestBody → Nat → TransportOutcome α) (pb : ParsedBody α) (e : String),
        t (builtBody method ps) 0 = .httpResponse 200 (.ok pb) →
        pb.modelParse = .error e →
        executeRequest α method ps uri ⟨.ok (), t⟩ = .error e)
    ∧ (∀ (t : RequestBody → Nat → TransportOutcome α) (pb : ParsedBody α) (m : α)
          (e : String),
        t (builtBody method ps) 0 = .httpResponse 200 (.ok pb) →
        pb.modelParse = .ok m → pb.errorParse = .error e →
        executeRequest α method ps uri ⟨.ok (), t⟩ = .error e)
    ∧ (∀ (t : RequestBody → Nat → TransportOutcome α) (pb : ParsedBody α) (m : α)
          (er : RespError),
        t (builtBody method ps) 0 = .httpResponse 200 (.ok pb) →
        pb.modelParse = .ok m → pb.errorParse = .ok er → er.error.message ≠ "" →
        executeRequest α method ps uri ⟨.ok (), t⟩ =
          .error ("error code: " ++ toString er.error.code
            ++ ", error message: " ++ er.error.message))
    ∧ (∀ (t : RequestBody → Nat → TransportOutcome α) (pb : ParsedBody α) (m : α)
          (er : RespError),
        t (builtBody method ps) 0 = .httpResponse 200 (.ok pb) →
        pb.modelParse = .ok m → pb.errorParse = .ok er → er.error.message = "" →
        executeRequest α method ps uri ⟨.ok (), t⟩ = .ok m)
    ∧ (∀ (nr : Except String Unit) (t : RequestBody → Nat → TransportOutcome α),
        executeRequest α method ps uri ⟨nr, t⟩ =
          executeRequest α method ps uri ⟨nr, fun b _ => t b 0⟩) := by
  intro α method ps uri
  refine ⟨?_, ?_, ?_, ?_, ?_, ?_, ?_, ?_, ?_⟩
  · intro t e; rfl
  · intro t e ht; simp [executeRequest, ht]
  · intro t s r ht hs; simp [executeRequest, ht, hs]
  · intro t e ht; simp [executeRequest, ht]
  · intro t pb e ht hm; simp [executeRequest, ht, hm]
  · intro t pb m e ht hm he; simp [executeRequest, ht, hm, he]
  · intro t pb m er ht hm he hmsg; simp [executeRequest, ht, hm, he, hmsg]
  · intro t pb m er ht hm he hmsg; simp [executeRequest, ht, hm, he, hmsg]
  · intro nr t; rfl

/-- C3 witness: at concrete inputs, a failed `Do` surfaces its error, and a
fully successful pipeline returns the unmarshalled model. -/
theorem C3_first_error_no_retries_witness :
    executeRequest RespInteger "getblockcount" none "http://node"
        (doErrorEnv RespInteger "dial tcp: connection refused")
      = .error "dial tcp: connection refused"
    ∧ executeRequest RespInteger "getblockcount" none "http://node" (intEnv 42)
      = .ok ⟨1, "2.0", 42⟩ :=
  ⟨(C3_first_error_no_retries RespInteger "getblockcount" none "http://node").2.1
      _ "dial tcp: connection refused" rfl,
    (C3_first_error_no_retries RespInteger "getblockcount" none
        "http://node").2.2.2.2.2.2.2.1 _ _ _ _ rfl rfl rfl rfl⟩

/-- C4: for every HTTP response with a status code other than 200,
`executeRequest` returns an error reporting the status code, and the
calling operation (shown for `GetBlockCount` and `GetBestBlockHash`)
propagates that error, producing no result. -/
theorem C4_non200_error :
    (∀ (α : Type) (method : String) (ps : Option (List RpcParam)) (uri : String)
        (t : RequestBody → Nat → TransportOutcome α) (s : Int)
        (r : Except String (ParsedBody α)),
      t (builtBody method ps) 0 = .httpResponse s r → s ≠ 200 →
      executeRequest α method ps uri ⟨.ok (), t⟩ =
        .error ("non-200 status code returned from NEO node, got: \x27"
          ++ toString s ++ "\x27"))
    ∧ (∀ (c : Client) (t : RequestBody → Nat → TransportOutcome RespInteger) (s : Int)
          (r : Except String (ParsedBody RespInteger)),
        t (builtBody "getblockcount" none) 0 = .httpResponse s r → s ≠ 200 →
        Client.GetBlockCount c ⟨.ok (), t⟩ =
          .error ("non-200 status code returned from NEO node, got: \x27"
            ++ toString s ++ "\x27"))
    ∧ (∀ (c : Client) (t : RequestBody → Nat → TransportOutcome RespString) (s : Int)
          (r : Except String (ParsedBody RespString)),
        t (builtBody "getbestblockhash" none) 0 = .httpResponse s r → s ≠ 200 →
        Client.GetBestBlockHash c ⟨.ok (), t⟩ =
          .error ("non-200 status code returned from NEO node, got: \x27"
            ++ toString s ++ "\x27")) := by
  refine ⟨?_, ?_, ?_⟩
  · intro α method ps uri t s r ht hs
    simp [executeRequest, ht, hs]
  · intro c t s r ht hs
    simp [Client.GetBlockCount, executeRequest, ht, hs]
  · intro c t s r ht hs
    simp [Client.GetBestBlockHash, executeRequest, ht, hs]

/-- C4 witness: a 500 response makes `executeRequest` and `GetBlockCount`
return the status-code error at a concrete input. -/
theorem C4_non200_error_witness :
    executeRequest RespInteger "getblockcount" none "http://node"
        (badStatusEnv RespInteger 500)
      = .error ("non-200 status code returned from NEO node, got: \x27"
          ++ toString (500 : Int) ++ "\x27")
    ∧ Client.GetBlockCount ⟨"http://node", ["http://node"]⟩ (badStatusEnv RespInteger 500)
      = .error ("non-200 status code returned from NEO node, got: \x27"
          ++ toString (500 : Int) ++ "\x27") :=
  ⟨C4_non200_error.1 RespInteger "getblockcount" none "http://node" _ 500 _ rfl
      (by decide),
    C4_non200_error.2.1 ⟨"http://node", ["http://node"]⟩ _ 500 _ rfl (by decide)⟩

/-- C1, as stated, is false: a response whose JSON-RPC error envelope is
populated with a non-zero code but an empty message makes `executeRequest`
succeed — the code checks only `errorResp.Error.Message != ""` — so no
error containing the code and message is returned. -/
theorem C1_code_without_message_counterexample :
    (⟨7, ""⟩ : ErrorEnvelope) ≠ ⟨0, ""⟩
    ∧ (envelopeEnv RespInteger ⟨1, "2.0", 42⟩ ⟨7, ""⟩).transport
        (builtBody "getblockcount" none) 0
      = .httpResponse 200 (.ok ⟨.ok ⟨1, "2.0", 42⟩, .ok ⟨1, "2.0", ⟨7, ""⟩⟩⟩)
    ∧ executeRequest RespInteger "getblockcount" none "http://node"
        (envelopeEnv RespInteger ⟨1, "2.0", 42⟩ ⟨7, ""⟩)
      = .ok ⟨1, "2.0", 42⟩ :=
  ⟨by decide, rfl, rfl⟩

/-- C1 (amended): for every response body that reaches the envelope check
(model and envelope unmarshals succeeded) and whose error envelope carries
a non-empty message, `executeRequest` returns an error containing both the
code of the envelope and its message, regardless of which operation called
(method, parameters and model type are universally quantified). -/
theorem C1_nonempty_message_gives_error :
    ∀ (α : Type) (method : String) (ps : Option (List RpcParam)) (uri : String)
      (t : RequestBody → Nat → TransportOutcome α) (pb : ParsedBody α) (m : α)
      (er : RespError),
      t (builtBody method ps) 0 = .httpResponse 200 (.ok pb) →
      pb.modelParse = .ok m → pb.errorParse = .ok er → er.error.message ≠ "" →
      executeRequest α method ps uri ⟨.ok (), t⟩ =
        .error ("error code: " ++ toString er.error.code
          ++ ", error message: " ++ er.error.message) := by
  intro α method ps uri t pb m er ht hm he hmsg
  simp [executeRequest, ht, hm, he, hmsg]

/-- C1 witness: a concrete populated envelope produces the combined
code-and-message error. -/
theorem C1_nonempty_message_gives_error_witness :
    executeRequest RespInteger "getblockcount" none "http://node"
        (envelopeEnv RespInteger ⟨1, "2.0", 0⟩ ⟨-32602, "Invalid params"⟩)
      = .error ("error code: " ++ toString (-32602 : Int)
          ++ ", error message: " ++ "Invalid params") :=
  C1_nonempty_message_gives_error RespInteger "getblockcount" none "http://node"
    _ _ _ ⟨1, "2.0", ⟨-32602, "Invalid params"⟩⟩ rfl rfl rfl (by decide)

/-- C5, as stated, is false: `executeRequest` can succeed while the error
field of the envelope it processed is not empty — a non-zero code with an
empty message passes the check. -/
theorem C5_success_with_nonzero_code_counterexample :
    executeRequest RespString "getbestblockhash" none "http://node"
        (envelopeEnv RespString ⟨1, "2.0", "0xabc"⟩ ⟨9, ""⟩)
      = .ok ⟨1, "2.0", "0xabc"⟩
    ∧ (envelopeEnv RespString ⟨1, "2.0", "0xabc"⟩ ⟨9, ""⟩).transport
        (builtBody "getbestblockhash" none) 0
      = .httpResponse 200 (.ok ⟨.ok ⟨1, "2.0", "0xabc"⟩, .ok ⟨1, "2.0", ⟨9, ""⟩⟩⟩)
    ∧ (⟨9, ""⟩ : ErrorEnvelope) ≠ ⟨0, ""⟩ :=
  ⟨rfl, rfl, by decide⟩

/-- C5 (amended): whenever `executeRequest` returns success, the error
message of the envelope unmarshalled from the response it processed is the
empty string. -/
theorem C5_success_implies_empty_message :
    ∀ (α : Type) (method : String) (ps : Option (List RpcParam)) (uri : String)
      (nr : Except String Unit) (t : RequestBody → Nat → TransportOutcome α)
      (s : Int) (pb : ParsedBody α) (er : RespError) (m : α),
      t (builtBody method ps) 0 = .httpResponse s (.ok pb) →
      pb.errorParse = .ok er →
      executeRequest α method ps uri ⟨nr, t⟩ = .ok m →
      er.error.message = "" := by
  intro α method ps uri nr t s pb er m ht he hres
  cases nr with
  | error e => simp [executeRequest] at hres
  | ok u =>
    simp only [executeRequest, ht] at hres
    by_cases hs : s = 200
    · subst hs
      simp only [ne_eq, reduceIte] at hres
      cases hm : pb.modelParse with
      | error e => simp [hm] at hres
      | ok mv =>
        simp only [hm, he] at hres
        by_cases hmsg : er.error.message = ""
        · exact hmsg
        · simp [hmsg] at hres
    · simp [hs] at hres

/-- C5 witness: a concrete successful call, whose processed envelope indeed
has an empty message. -/
theorem C5_success_implies_empty_message_witness :
    (⟨1, "2.0", ⟨0, ""⟩⟩ : RespError).error.message = "" :=
  C5_success_implies_empty_message RespInteger "getblockcount" none "http://node"
    (.ok ()) (okEnv RespInteger ⟨1, "2.0", 7⟩).transport 200
    ⟨.ok ⟨1, "2.0", 7⟩, .ok ⟨1, "2.0", ⟨0, ""⟩⟩⟩ ⟨1, "2.0", ⟨0, ""⟩⟩ ⟨1, "2.0", 7⟩
    rfl rfl rfl

lemma executeRequest_transport_congr (α : Type) (method : String)
    (ps : Option (List RpcParam)) (uri : String) (nr : Except String Unit)
    (t s : RequestBody → Nat → TransportOutcome α)
    (h : t (builtBody method ps) = s (builtBody method ps)) :
    executeRequest α method ps uri ⟨nr, t⟩ = executeRequest α method ps uri ⟨nr, s⟩ := by
  cases nr with
  | error e => rfl
  | ok u => simp only [executeRequest, h]

/-- C7: for every client operation, the request body handed to the
transport is a JSON-RPC 2.0 envelope (`jsonrpc = "2.0"`) carrying that
method name and positional parameters of that operation. For each operation the
built envelope is stated explicitly, and the outcome of the operation depends
on the transport only through its value at that envelope. -/
theorem C7_request_envelopes :
    (builtBody "getbestblockhash" none = ⟨"2.0", "getbestblockhash", []⟩
      ∧ ∀ (c : Client) (nr : Except String Unit)
          (t s : RequestBody → Nat → TransportOutcome RespString),
          t (builtBody "getbestblockhash" none) = s (builtBody "getbestblockhash" none) →
          Client.GetBestBlockHash c ⟨nr, t⟩ = Client.GetBestBlockHash c ⟨nr, s⟩)
    ∧ (∀ (hash : String),
        builtBody "getblock" (some [.str hash, .int 1])
          = ⟨"2.0", "getblock", [.str hash, .int 1]⟩
        ∧ ∀ (c : Client) (nr : Except String Unit)
            (t s : RequestBody → Nat → TransportOutcome RespBlock),
            t (builtBody "getblock" (some [.str hash, .int 1]))
              = s (builtBody "getblock" (some [.str hash, .int 1])) →
            Client.GetBlockByHash c hash ⟨nr, t⟩ = Client.GetBlockByHash c hash ⟨nr, s⟩)
    ∧ (∀ (index : Int),
        builtBody "getblock" (some [.int index, .int 1])
          = ⟨"2.0", "getblock", [.int index, .int 1]⟩
        ∧ ∀ (c : Client) (nr : Except String Unit)
            (t s : RequestBody → Nat → TransportOutcome RespBlock),
            t (builtBody "getblock" (some [.int index, .int 1]))
              = s (builtBody "getblock" (some [.int index, .int 1])) →
            Client.GetBlockByIndex c index ⟨nr, t⟩ = Client.GetBlockByIndex c index ⟨nr, s⟩)
    ∧ (builtBody "getblockcount" none = ⟨"2.0", "getblockcount", []⟩
      ∧ ∀ (c : Client) (nr : Except String Unit)
          (t s : RequestBody → Nat → TransportOutcome RespInteger),
          t (builtBody "getblockcount" none) = s (builtBody "getblockcount" none) →
          Client.GetBlockCount c ⟨nr, t⟩ = Client.GetBlockCount c ⟨nr, s⟩)
    ∧ (∀ (index : Int),
        builtBody "getblockhash" (some [.int index])
          = ⟨"2.0", "getblockhash", [.int index]⟩
        ∧ ∀ (c : Client) (nr : Except String Unit)
            (t s : RequestBody → Nat → TransportOutcome RespString),
            t (builtBody "getblockhash" (some [.int index]))
              = s (builtBody "getblockhash" (some [.int index])) →
            Client.GetBlockHash c index ⟨nr, t⟩ = Client.GetBlockHash c index ⟨nr, s⟩)
    ∧ (builtBody "getconnectioncount" none = ⟨"2.0", "getconnectioncount", []⟩
      ∧ ∀ (c : Client) (nr : Except String Unit)
          (t s : RequestBody → Nat → TransportOutcome RespInteger),
          t (builtBody "getconnectioncount" none) = s (builtBody "getconnectioncount" none) →
          Client.GetConnectionCount c ⟨nr, t⟩ = Client.GetConnectionCount c ⟨nr, s⟩)
    ∧ (∀ (scriptHash storageKey : String),
        builtBody "getstorage" (some [.str scriptHash, .str (hexEncodeToString storageKey)])
          = ⟨"2.0", "getstorage", [.str scriptHash, .str (hexEncodeToString storageKey)]⟩
        ∧ ∀ (c : Client) (nr : Except String Unit)
            (t s : RequestBody → Nat → TransportOutcome RespString),
            t (builtBody "getstorage"
                (some [.str scriptHash, .str (hexEncodeToString storageKey)]))
              = s (builtBody "getstorage"
                (some [.str scriptHash, .str (hexEncodeToString storageKey)])) →
            Client.GetStorage c scriptHash storageKey ⟨nr, t⟩
              = Client.GetStorage c scriptHash storageKey ⟨nr, s⟩)
    ∧ (∀ (hash : String),
        builtBody "getrawtransaction" (some [.str hash, .int 1])
          = ⟨"2.0", "getrawtransaction", [.str hash, .int 1]⟩
        ∧ ∀ (c : Client) (nr : Except String Unit)
            (t s : RequestBody → Nat → TransportOutcome RespTransaction),
            t (builtBody "getrawtransaction" (some [.str hash, .int 1]))
              = s (builtBody "getrawtransaction" (some [.str hash, .int 1])) →
            Client.GetTransaction c hash ⟨nr, t⟩ = Client.GetTransaction c hash ⟨nr, s⟩)
    ∧ (∀ (hash : String) (index : Int),
        builtBody "gettxout" (some [.str hash, .int index])
          = ⟨"2.0", "gettxout", [.str hash, .int index]⟩
        ∧ ∀ (c : Client) (nr : Except String Unit)
            (t s : RequestBody → Nat → TransportOutcome RespVout),
            t (builtBody "gettxout" (some [.str hash, .int index]))
              = s (builtBody "gettxout" (some [.str hash, .int index])) →
            Client.GetTransactionOutput c hash index ⟨nr, t⟩
              = Client.GetTransactionOutput c hash index ⟨nr, s⟩)
    ∧ (builtBody "getrawmempool" none = ⟨"2.0", "getrawmempool", []⟩
      ∧ ∀ (c : Client) (nr : Except String Unit)
          (t s : RequestBody → Nat → TransportOutcome RespStringArray),
          t (builtBody "getrawmempool" none) = s (builtBody "getrawmempool" none) →
          Client.GetUnconfirmedTransactions c ⟨nr, t⟩
            = Client.GetUnconfirmedTransactions c ⟨nr, s⟩)
    ∧ (∀ (address : String),
        builtBody "validateaddress" (some [.str address])
          = ⟨"2.0", "validateaddress", [.str address]⟩
        ∧ ∀ (c : Client) (nr : Except String Unit)
            (t s : RequestBody → Nat → TransportOutcome RespStringMap),
            t (builtBody "validateaddress" (some [.str address]))
              = s (builtBody "validateaddress" (some [.str address])) →
            Client.ValidateAddress c address ⟨nr, t⟩
              = Client.ValidateAddress c address ⟨nr, s⟩)
    ∧ (∀ (assetID : String),
        builtBody "getbalance" (some [.str assetID])
          = ⟨"2.0", "getbalance", [.str assetID]⟩
        ∧ ∀ (c : Client) (nr : Except String Unit)
            (t s : RequestBody → Nat → TransportOutcome RespBalance),
            t (builtBody "getbalance" (some [.str assetID]))
              = s (builtBody "getbalance" (some [.str assetID])) →
            Client.GetBalance c assetID ⟨nr, t⟩ = Client.GetBalance c assetID ⟨nr, s⟩)
    ∧ (builtBody "getnewaddress" none = ⟨"2.0", "getnewaddress", []⟩
      ∧ ∀ (c : Client) (nr : Except String Unit)
          (t s : RequestBody → Nat → TransportOutcome RespString),
          t (builtBody "getnewaddress" none) = s (builtBody "getnewaddress" none) →
          Client.GetNewAddress c ⟨nr, t⟩ = Client.GetNewAddress c ⟨nr, s⟩)
    ∧ (∀ (assetID toAddress : String) (amount : RpcParam),
        builtBody "sendtoaddress" (some [.str assetID, .str toAddress, amount])
          = ⟨"2.0", "sendtoaddress", [.str assetID, .str toAddress, amount]⟩
        ∧ ∀ (c : Client) (nr : Except String Unit)
            (t s : RequestBody → Nat → TransportOutcome RespTransaction),
            t (builtBody "sendtoaddress" (some [.str assetID, .str toAddress, amount]))
              = s (builtBody "sendtoaddress" (some [.str assetID, .str toAddress, amount])) →
            Client.SendToAddress c assetID toAddress amount ⟨nr, t⟩
              = Client.SendToAddress c assetID toAddress amount ⟨nr, s⟩) := by
  refine ⟨⟨rfl, ?_⟩, fun hash => ⟨rfl, ?_⟩, fun index => ⟨rfl, ?_⟩, ⟨rfl, ?_⟩,
    fun index => ⟨rfl, ?_⟩, ⟨rfl, ?_⟩, fun scriptHash storageKey => ⟨rfl, ?_⟩,
    fun hash => ⟨rfl, ?_⟩, fun hash index => ⟨rfl, ?_⟩, ⟨rfl, ?_⟩,
    fun address => ⟨rfl, ?_⟩, fun assetID => ⟨rfl, ?_⟩, ⟨rfl, ?_⟩,
    fun assetID toAddress amount => ⟨rfl, ?_⟩⟩ <;>
  · intro c nr t s h
    first
    | exact congrArg
        (fun r => match r with
          | Except.error e => Except.error e
          | Except.ok resp => Except.ok resp.result)
        (executeRequest_transport_congr _ _ _ c.Node nr t s h)
    | simp only [Client.GetBestBlockHash, Client.GetBlockByHash, Client.GetBlockByIndex,
        Client.GetBlockCount, Client.GetBlockHash, Client.GetConnectionCount,
        Client.GetStorage, Client.GetTransaction, Client.GetTransactionOutput,
        Client.GetUnconfirmedTransactions, Client.ValidateAddress, Client.GetBalance,
        Client.GetNewAddress, Client.SendToAddress,
        executeRequest_transport_congr _ _ _ c.Node nr t s h]

/-- C7 witness: the envelope built for a concrete `GetBlockByHash` call,
and a concrete `GetBlockCount` call whose outcome is unchanged when the
transport is replaced by one agreeing on the built envelope. -/
theorem C7_request_envelopes_witness :
    builtBody "getblock" (some [.str "0xhash", .int 1])
      = ⟨"2.0", "getblock", [.str "0xhash", .int 1]⟩
    ∧ Client.GetBlockCount ⟨"http://node", ["http://node"]⟩ ⟨.ok (), (intEnv 5).transport⟩
      = Client.GetBlockCount ⟨"http://node", ["http://node"]⟩
          ⟨.ok (), fun b _ => (intEnv 5).transport b 0⟩ :=
  ⟨(C7_request_envelopes.2.1 "0xhash").1,
    C7_request_envelopes.2.2.2.1.2 ⟨"http://node", ["http://node"]⟩ (.ok ())
      (intEnv 5).transport (fun b _ => (intEnv 5).transport b 0) rfl⟩

lemma selectBestNodeAux_err_client (query : String → Except String Int) (c : Client)
    (h : (selectBestNodeAux query c).err ≠ none) :
    (selectBestNodeAux query c).client = c := by
  obtain ⟨node, uris⟩ := c
  match uris with
  | [] => rfl
  | [u] => exact absurd (by rw [selectBestNodeAux_single]) h
  | x :: y :: rest =>
    rw [selectBestNodeAux_multi] at h ⊢
    by_cases hb : (selectLoop query (x :: y :: rest) "" 0).1.1 = ""
    · rw [if_pos hb]
    · rw [if_neg hb] at h; simp at h

/-- C2, as stated, is false: with a single node URI that cannot be
communicated with, `SelectBestNode` queries nothing, returns no error, and
sets `Node` to the unreachable URI. -/
theorem C2_single_unreachable_counterexample :
    nodeQuery (fun _ => doErrorEnv RespInteger "connection refused") "http://only"
      = .error "connection refused"
    ∧ Client.SelectBestNode ⟨"", ["http://only"]⟩
        (fun _ => doErrorEnv RespInteger "connection refused")
      = ⟨⟨"http://only", ["http://only"]⟩, none, []⟩ :=
  ⟨rfl, rfl⟩

/-- C2 (amended): with two or more node URIs, `SelectBestNode` queries each
URI sequentially for its block count; it sets `Node` to the earliest URI
reporting the strictly greatest block count provided that count is
positive; if no queried node reports a positive block count (in particular
when none can be communicated with), it returns an error and leaves the
client unchanged. With exactly one URI, that URI becomes `Node` without
any query and without error. -/
theorem C2_select_best_node (envOf : String → RequestEnv RespInteger) (c : Client) :
    (2 ≤ c.nodeURIs.length → (Client.SelectBestNode c envOf).queried = c.nodeURIs)
    ∧ (∀ (xs ys : List String) (u : String) (m : Int),
        2 ≤ c.nodeURIs.length → c.nodeURIs = xs ++ u :: ys →
        nodeQuery envOf u = .ok m → 0 < m → u ≠ "" →
        (∀ x ∈ xs, ∀ v, nodeQuery envOf x = .ok v → v < m) →
        (∀ y ∈ ys, ∀ v, nodeQuery envOf y = .ok v → v ≤ m) →
        Client.SelectBestNode c envOf = ⟨⟨u, c.nodeURIs⟩, none, c.nodeURIs⟩)
    ∧ (2 ≤ c.nodeURIs.length →
        (∀ x ∈ c.nodeURIs, ∀ v, nodeQuery envOf x = .ok v → v ≤ 0) →
        Client.SelectBestNode c envOf =
          ⟨c, some "Unable to communicate with any nodes", c.nodeURIs⟩)
    ∧ (∀ u, c.nodeURIs = [u] →
        Client.SelectBestNode c envOf = ⟨⟨u, c.nodeURIs⟩, none, []⟩) := by
  obtain ⟨node, uris⟩ := c
  refine ⟨?_, ?_, ?_, ?_⟩
  · intro hlen
    exact selectBestNodeAux_queried (nodeQuery envOf) node uris hlen
  · intro xs ys u m hlen hdec hq hm hu hxs hys
    exact selectBestNodeAux_earliest (nodeQuery envOf) node uris xs ys u m hlen hdec
      hq hm hu hxs hys
  · intro hlen hall
    exact selectBestNodeAux_all_low (nodeQuery envOf) node uris hlen hall
  · intro u hu
    simp only at hu
    subst hu
    exact selectBestNodeAux_single (nodeQuery envOf) node u

/-- C2 witness: among two reachable nodes reporting 3 and 5, the second is
selected with no error and both were queried; a lone URI is adopted
without queries. -/
theorem C2_select_best_node_witness :
    Client.SelectBestNode ⟨"", ["http://a", "http://b"]⟩
        (fun u => if u = "http://a" then intEnv 3
          else if u = "http://b" then intEnv 5
          else doErrorEnv RespInteger "down")
      = ⟨⟨"http://b", ["http://a", "http://b"]⟩, none, ["http://a", "http://b"]⟩
    ∧ Client.SelectBestNode ⟨"", ["http://solo"]⟩
        (fun _ => doErrorEnv RespInteger "down")
      = ⟨⟨"http://solo", ["http://solo"]⟩, none, []⟩ := by
  constructor
  · exact (C2_select_best_node
        (fun u => if u = "http://a" then intEnv 3
          else if u = "http://b" then intEnv 5
          else doErrorEnv RespInteger "down")
        ⟨"", ["http://a", "http://b"]⟩).2.1 ["http://a"] [] "http://b" 5
      (by decide) rfl rfl (by decide) (by decide)
      (by
        intro x hx v hv
        simp only [List.mem_singleton] at hx
        subst hx
        rw [show nodeQuery
            (fun u => if u = "http://a" then intEnv 3
              else if u = "http://b" then intEnv 5
              else doErrorEnv RespInteger "down") "http://a" = .ok 3 from rfl] at hv
        injection hv with h
        omega)
      (by intro y hy; simp at hy)
  · exact (C2_select_best_node (fun _ => doErrorEnv RespInteger "down")
      ⟨"", ["http://solo"]⟩).2.2.2 "http://solo" rfl

/-- C9: in `SelectBestNode` with two or more URIs, a node reporting a block
count ≤ 0 is never the selected `Node` (when selection succeeded); among
nodes tying for the highest positive count the earliest in the slice is
selected; with exactly one URI, that URI is selected without any query. -/
theorem C9_selection_details (envOf : String → RequestEnv RespInteger) (c : Client) :
    (∀ (u : String) (b : Int),
      2 ≤ c.nodeURIs.length → nodeQuery envOf u = .ok b → b ≤ 0 →
      (Client.SelectBestNode c envOf).err = none →
      (Client.SelectBestNode c envOf).client.Node ≠ u)
    ∧ (∀ (xs ys : List String) (u : String) (m : Int),
        2 ≤ c.nodeURIs.length → c.nodeURIs = xs ++ u :: ys →
        nodeQuery envOf u = .ok m → 0 < m → u ≠ "" →
        (∀ x ∈ xs, ∀ v, nodeQuery envOf x = .ok v → v < m) →
        (∀ y ∈ ys, ∀ v, nodeQuery envOf y = .ok v → v ≤ m) →
        (Client.SelectBestNode c envOf).client.Node = u)
    ∧ (∀ u, c.nodeURIs = [u] →
        (Client.SelectBestNode c envOf).client.Node = u
        ∧ (Client.SelectBestNode c envOf).queried = []
        ∧ (Client.SelectBestNode c envOf).err = none) := by
  obtain ⟨node, uris⟩ := c
  refine ⟨?_, ?_, ?_⟩
  · intro u b hlen hq hb herr
    exact selectBestNodeAux_low_not_selected (nodeQuery envOf) node u uris b hlen hq hb herr
  · intro xs ys u m hlen hdec hq hm hu hxs hys
    rw [show Client.SelectBestNode ⟨node, uris⟩ envOf
        = selectBestNodeAux (nodeQuery envOf) ⟨node, uris⟩ from rfl,
      selectBestNodeAux_earliest (nodeQuery envOf) node uris xs ys u m hlen hdec
        hq hm hu hxs hys]
  · intro u hu
    simp only at hu
    subst hu
    rw [show Client.SelectBestNode ⟨node, [u]⟩ envOf
        = selectBestNodeAux (nodeQuery envOf) ⟨node, [u]⟩ from rfl,
      selectBestNodeAux_single (nodeQuery envOf) node u]
    exact ⟨rfl, rfl, rfl⟩

/-- C9 witness: a node reporting 0 is not selected although it is first and
reachable; a lone URI is selected with nothing queried. -/
theorem C9_selection_details_witness :
    (Client.SelectBestNode ⟨"", ["http://z", "http://w"]⟩
        (fun u => if u = "http://z" then intEnv 0
          else if u = "http://w" then intEnv 2
          else doErrorEnv RespInteger "down")).client.Node ≠ "http://z"
    ∧ (Client.SelectBestNode ⟨"", ["http://lone"]⟩
        (fun _ => doErrorEnv RespInteger "down")).queried = [] := by
  constructor
  · exact (C9_selection_details
        (fun u => if u = "http://z" then intEnv 0
          else if u = "http://w" then intEnv 2
          else doErrorEnv RespInteger "down")
        ⟨"", ["http://z", "http://w"]⟩).1 "http://z" 0 (by decide) rfl (by decide) rfl
  · exact ((C9_selection_details (fun _ => doErrorEnv RespInteger "down")
      ⟨"", ["http://lone"]⟩).2.2 "http://lone" rfl).2.1

/-- C8: `NewClientUsingMultipleNodes` returns an error exactly for the
empty URI list; for every non-empty list it returns a client and no
error, and when the discarded `SelectBestNode` call failed, the returned
`Node` of the returned client is the empty string (the Go zero value it was created
with). -/
theorem C8_constructor_discards_selection_error
    (envOf : String → RequestEnv RespInteger) :
    (NewClientUsingMultipleNodes [] envOf
      = .error "Length of \x27nodeURIs\x27 argument must be greater than 0")
    ∧ (∀ (nodeURIs : List String), nodeURIs ≠ [] →
        ∃ cl, NewClientUsingMultipleNodes nodeURIs envOf = .ok cl)
    ∧ (∀ (nodeURIs : List String) (cl : Client), nodeURIs ≠ [] →
        NewClientUsingMultipleNodes nodeURIs envOf = .ok cl →
        (Client.SelectBestNode ⟨"", nodeURIs⟩ envOf).err ≠ none →
        cl.Node = "") := by
  refine ⟨rfl, ?_, ?_⟩
  · intro nodeURIs hne
    refine ⟨(Client.SelectBestNode ⟨"", nodeURIs⟩ envOf).client, ?_⟩
    simp [NewClientUsingMultipleNodes, List.length_eq_zero, hne]
  · intro nodeURIs cl hne hres herr
    simp only [NewClientUsingMultipleNodes, List.length_eq_zero] at hres
    rw [if_neg hne] at hres
    injection hres with hcl
    have hclient := selectBestNodeAux_err_client (nodeQuery envOf) ⟨"", nodeURIs⟩ herr
    rw [← hcl, show (Client.SelectBestNode ⟨"", nodeURIs⟩ envOf).client
      = (selectBestNodeAux (nodeQuery envOf) ⟨"", nodeURIs⟩).client from rfl, hclient]

/-- C8 witness: the empty list is rejected; with two unreachable nodes the
constructor still returns a client whose `Node` is empty. -/
theorem C8_constructor_discards_selection_error_witness :
    NewClientUsingMultipleNodes [] (fun _ => doErrorEnv RespInteger "down")
      = .error "Length of \x27nodeURIs\x27 argument must be greater than 0"
    ∧ (⟨"", ["http://a", "http://b"]⟩ : Client).Node = "" := by
  constructor
  · exact (C8_constructor_discards_selection_error
      (fun _ => doErrorEnv RespInteger "down")).1
  · exact (C8_constructor_discards_selection_error
      (fun _ => doErrorEnv RespInteger "down")).2.2 ["http://a", "http://b"]
      ⟨"", ["http://a", "http://b"]⟩ (by decide) rfl (by decide)

/-- C10: `ValidateAddress` propagates RPC errors; on RPC success it returns
`(true, nil)` exactly when the result map holds a string entry `address`
equal to the queried address and a boolean entry `isvalid` that is true,
and returns `(false, nil)` when either key is missing or has the wrong
type. -/
theorem C10_validate_address (c : Client) (address : String) :
    (∀ (nr : Except String Unit) (t : RequestBody → Nat → TransportOutcome RespStringMap)
        (e : String),
      executeRequest RespStringMap "validateaddress" (some [.str address]) c.Node ⟨nr, t⟩
        = .error e →
      Client.ValidateAddress c address ⟨nr, t⟩ = .error e)
    ∧ (∀ (t : RequestBody → Nat → TransportOutcome RespStringMap)
          (pb : ParsedBody RespStringMap) (resp : RespStringMap) (er : RespError),
        t (builtBody "validateaddress" (some [.str address])) 0
          = .httpResponse 200 (.ok pb) →
        pb.modelParse = .ok resp → pb.errorParse = .ok er → er.error.message = "" →
        ((Client.ValidateAddress c address ⟨.ok (), t⟩ = .ok true
            ↔ resp.result.lookup "address" = some (.str address)
              ∧ resp.result.lookup "isvalid" = some (.bool true))
        ∧ (resp.result.lookup "address" = none →
            Client.ValidateAddress c address ⟨.ok (), t⟩ = .ok false)
        ∧ (∀ v, resp.result.lookup "address" = some v → (∀ s, v ≠ .str s) →
            Client.ValidateAddress c address ⟨.ok (), t⟩ = .ok false)
        ∧ (∀ s, resp.result.lookup "address" = some (.str s) →
            resp.result.lookup "isvalid" = none →
            Client.ValidateAddress c address ⟨.ok (), t⟩ = .ok false)
        ∧ (∀ s v, resp.result.lookup "address" = some (.str s) →
            resp.result.lookup "isvalid" = some v → (∀ b, v ≠ .bool b) →
            Client.ValidateAddress c address ⟨.ok (), t⟩ = .ok false))) := by
  constructor
  · intro nr t e he
    simp only [Client.ValidateAddress, he]
  · intro t pb resp er ht hm he hmsg
    have hexec : executeRequest RespStringMap "validateaddress" (some [.str address])
        c.Node ⟨.ok (), t⟩ = .ok resp := by
      simp [executeRequest, ht, hm, he, hmsg]
    refine ⟨?_, ?_, ?_, ?_, ?_⟩
    · constructor
      · intro h
        simp only [Client.ValidateAddress, hexec] at h
        rcases hA : resp.result.lookup "address" with _ | v
        · rw [hA] at h; simp at h
        · cases v with
          | null => rw [hA] at h; simp at h
          | num n => rw [hA] at h; simp at h
          | bool b => rw [hA] at h; simp at h
          | str srstr =>
            rw [hA] at h
            rcases hV : resp.result.lookup "isvalid" with _ | w
            · rw [hV] at h; simp at h
            · cases w with
              | null => rw [hV] at h; simp at h
              | num n => rw [hV] at h; simp at h
              | str s2 => rw [hV] at h; simp at h
              | bool bv =>
                rw [hV] at h
                simp only at h
                split_ifs at h with hc
                · obtain ⟨h1, h2⟩ := hc
                  subst h1
                  subst h2
                  exact ⟨rfl, rfl⟩
                · simp at h
      · rintro ⟨hA, hV⟩
        simp only [Client.ValidateAddress, hexec, hA, hV]
        simp
    · intro hA
      simp only [Client.ValidateAddress, hexec, hA]
    · intro v hA hv
      cases v with
      | null => simp only [Client.ValidateAddress, hexec, hA]
      | num n => simp only [Client.ValidateAddress, hexec, hA]
      | bool b => simp only [Client.ValidateAddress, hexec, hA]
      | str s => exact absurd rfl (hv s)
    · intro s hA hV
      simp only [Client.ValidateAddress, hexec, hA, hV]
    · intro s v hA hV hv
      cases v with
      | null => simp only [Client.ValidateAddress, hexec, hA, hV]
      | num n => simp only [Client.ValidateAddress, hexec, hA, hV]
      | str s2 => simp only [Client.ValidateAddress, hexec, hA, hV]
      | bool b => exact absurd rfl (hv b)

/-- C10 witness: a result map echoing the queried address with
`isvalid = true` yields `(true, nil)`; a map missing `isvalid` yields
`(false, nil)`. -/
theorem C10_validate_address_witness :
    Client.ValidateAddress ⟨"http://node", ["http://node"]⟩ "AdrX"
        (okEnv RespStringMap
          ⟨1, "2.0", [("address", .str "AdrX"), ("isvalid", .bool true)]⟩)
      = .ok true
    ∧ Client.ValidateAddress ⟨"http://node", ["http://node"]⟩ "AdrX"
        (okEnv RespStringMap ⟨1, "2.0", [("address", .str "AdrX")]⟩)
      = .ok false := by
  constructor
  · exact ((C10_validate_address ⟨"http://node", ["http://node"]⟩ "AdrX").2
      (okEnv RespStringMap
        ⟨1, "2.0", [("address", .str "AdrX"), ("isvalid", .bool true)]⟩).transport
      ⟨.ok ⟨1, "2.0", [("address", .str "AdrX"), ("isvalid", .bool true)]⟩,
        .ok ⟨1, "2.0", ⟨0, ""⟩⟩⟩
      ⟨1, "2.0", [("address", .str "AdrX"), ("isvalid", .bool true)]⟩
      ⟨1, "2.0", ⟨0, ""⟩⟩ rfl rfl rfl rfl).1.mpr ⟨rfl, rfl⟩
  · exact ((C10_validate_address ⟨"http://node", ["http://node"]⟩ "AdrX").2
      (okEnv RespStringMap ⟨1, "2.0", [("address", .str "AdrX")]⟩).transport
      ⟨.ok ⟨1, "2.0", [("address", .str "AdrX")]⟩, .ok ⟨1, "2.0", ⟨0, ""⟩⟩⟩
      ⟨1, "2.0", [("address", .str "AdrX")]⟩
      ⟨1, "2.0", ⟨0, ""⟩⟩ rfl rfl rfl rfl).2.2.2.1 "AdrX" rfl rfl

/-- C6, as stated, is false: `ValidateAddress` returns without error a
value that is not the result field of the deserialized envelope — two
calls processing the identical response envelope (same result map) return
different values depending on the queried address, which is impossible for
a value equal to the result field. -/
theorem C6_validate_address_counterexample :
    Client.ValidateAddress ⟨"http://node", ["http://node"]⟩ "AdrY"
        (okEnv RespStringMap
          ⟨1, "2.0", [("address", .str "AdrY"), ("isvalid", .bool true)]⟩)
      = .ok true
    ∧ Client.ValidateAddress ⟨"http://node", ["http://node"]⟩ "AdrZ"
        (okEnv RespStringMap
          ⟨1, "2.0", [("address", .str "AdrY"), ("isvalid", .bool true)]⟩)
      = .ok false := by
  constructor <;> rfl

/-- C6 (amended): every client operation follows the pipeline deserialize →
check error envelope → return typed result; on success,
`GetBestBlockHash`, `GetBlockByHash`, `GetBlockByIndex`, `GetBlockCount`,
`GetBlockHash`, `GetConnectionCount`, `GetStorage`, `GetTransaction`,
`GetTransactionOutput`, `GetUnconfirmedTransactions` and `GetNewAddress`
return exactly the result field of the deserialized envelope, while
`ValidateAddress` returns the boolean computed from the result map (true
exactly when the map echoes the queried address with `isvalid` true),
`GetBalance` returns the balance and confirmed fields of the result
record, and `SendToAddress` returns the `ID` field of the result
transaction. -/
theorem C6_success_result_projection :
    (∀ (c : Client) (t : RequestBody → Nat → TransportOutcome RespString)
        (pb : ParsedBody RespString) (resp : RespString) (er : RespError),
      t (builtBody "getbestblockhash" none) 0 = .httpResponse 200 (.ok pb) →
      pb.modelParse = .ok resp → pb.errorParse = .ok er → er.error.message = "" →
      Client.GetBestBlockHash c ⟨.ok (), t⟩ = .ok resp.result)
    ∧ (∀ (c : Client) (hash : String) (t : RequestBody → Nat → TransportOutcome RespBlock)
          (pb : ParsedBody RespBlock) (resp : RespBlock) (er : RespError),
        t (builtBody "getblock" (some [.str hash, .int 1])) 0 = .httpResponse 200 (.ok pb) →
        pb.modelParse = .ok resp → pb.errorParse = .ok er → er.error.message = "" →
        Client.GetBlockByHash c hash ⟨.ok (), t⟩ = .ok resp.result)
    ∧ (∀ (c : Client) (index : Int) (t : RequestBody → Nat → TransportOutcome RespBlock)
          (pb : ParsedBody RespBlock) (resp : RespBlock) (er : RespError),
        t (builtBody "getblock" (some [.int index, .int 1])) 0 = .httpResponse 200 (.ok pb) →
        pb.modelParse = .ok resp → pb.errorParse = .ok er → er.error.message = "" →
        Client.GetBlockByIndex c index ⟨.ok (), t⟩ = .ok resp.result)
    ∧ (∀ (c : Client) (t : RequestBody → Nat → TransportOutcome RespInteger)
          (pb : ParsedBody RespInteger) (resp : RespInteger) (er : RespError),
        t (builtBody "getblockcount" none) 0 = .httpResponse 200 (.ok pb) →
        pb.modelParse = .ok resp → pb.errorParse = .ok er → er.error.message = "" →
        Client.GetBlockCount c ⟨.ok (), t⟩ = .ok resp.result)
    ∧ (∀ (c : Client) (index : Int) (t : RequestBody → Nat → TransportOutcome RespString)
          (pb : ParsedBody RespString) (resp : RespString) (er : RespError),
        t (builtBody "getblockhash" (some [.int index])) 0 = .httpResponse 200 (.ok pb) →
        pb.modelParse = .ok resp → pb.errorParse = .ok er → er.error.message = "" →
        Client.GetBlockHash c index ⟨.ok (), t⟩ = .ok resp.result)
    ∧ (∀ (c : Client) (t : RequestBody → Nat → TransportOutcome RespInteger)
          (pb : ParsedBody RespInteger) (resp : RespInteger) (er : RespError),
        t (builtBody "getconnectioncount" none) 0 = .httpResponse 200 (.ok pb) →
        pb.modelParse = .ok resp → pb.errorParse = .ok er → er.error.message = "" →
        Client.GetConnectionCount c ⟨.ok (), t⟩ = .ok resp.result)
    ∧ (∀ (c : Client) (scriptHash storageKey : String)
          (t : RequestBody → Nat → TransportOutcome RespString)
          (pb : ParsedBody RespString) (resp : RespString) (er : RespError),
        t (builtBody "getstorage"
            (some [.str scriptHash, .str (hexEncodeToString storageKey)])) 0
          = .httpResponse 200 (.ok pb) →
        pb.modelParse = .ok resp → pb.errorParse = .ok er → er.error.message = "" →
        Client.GetStorage c scriptHash storageKey ⟨.ok (), t⟩ = .ok resp.result)
    ∧ (∀ (c : Client) (hash : String)
          (t : RequestBody → Nat → TransportOutcome RespTransaction)
          (pb : ParsedBody RespTransaction) (resp : RespTransaction) (er : RespError),
        t (builtBody "getrawtransaction" (some [.str hash, .int 1])) 0
          = .httpResponse 200 (.ok pb) →
        pb.modelParse = .ok resp → pb.errorParse = .ok er → er.error.message = "" →
        Client.GetTransaction c hash ⟨.ok (), t⟩ = .ok resp.result)
    ∧ (∀ (c : Client) (hash : String) (index : Int)
          (t : RequestBody → Nat → TransportOutcome RespVout)
          (pb : ParsedBody RespVout) (resp : RespVout) (er : RespError),
        t (builtBody "gettxout" (some [.str hash, .int index])) 0
          = .httpResponse 200 (.ok pb) →
        pb.modelParse = .ok resp → pb.errorParse = .ok er → er.error.message = "" →
        Client.GetTransactionOutput c hash index ⟨.ok (), t⟩ = .ok resp.result)
    ∧ (∀ (c : Client) (t : RequestBody → Nat → TransportOutcome RespStringArray)
          (pb : ParsedBody RespStringArray) (resp : RespStringArray) (er : RespError),
        t (builtBody "getrawmempool" none) 0 = .httpResponse 200 (.ok pb) →
        pb.modelParse = .ok resp → pb.errorParse = .ok er → er.error.message = "" →
        Client.GetUnconfirmedTransactions c ⟨.ok (), t⟩ = .ok resp.result)
    ∧ (∀ (c : Client) (address : String)
          (t : RequestBody → Nat → TransportOutcome RespStringMap)
          (pb : ParsedBody RespStringMap) (resp : RespStringMap) (er : RespError),
        t (builtBody "validateaddress" (some [.str address])) 0
          = .httpResponse 200 (.ok pb) →
        pb.modelParse = .ok resp → pb.errorParse = .ok er → er.error.message = "" →
        Client.ValidateAddress c address ⟨.ok (), t⟩ =
          .ok (decide (resp.result.lookup "address" = some (.str address)
            ∧ resp.result.lookup "isvalid" = some (.bool true))))
    ∧ (∀ (c : Client) (assetID : String)
          (t : RequestBody → Nat → TransportOutcome RespBalance)
          (pb : ParsedBody RespBalance) (resp : RespBalance) (er : RespError),
        t (builtBody "getbalance" (some [.str assetID])) 0 = .httpResponse 200 (.ok pb) →
        pb.modelParse = .ok resp → pb.errorParse = .ok er → er.error.message = "" →
        Client.GetBalance c assetID ⟨.ok (), t⟩ =
          .ok (resp.result.balance, resp.result.confirmed))
    ∧ (∀ (c : Client) (t : RequestBody → Nat → TransportOutcome RespString)
          (pb : ParsedBody RespString) (resp : RespString) (er : RespError),
        t (builtBody "getnewaddress" none) 0 = .httpResponse 200 (.ok pb) →
        pb.modelParse = .ok resp → pb.errorParse = .ok er → er.error.message = "" →
        Client.GetNewAddress c ⟨.ok (), t⟩ = .ok resp.result)
    ∧ (∀ (c : Client) (assetID toAddress : String) (amount : RpcParam)
          (t : RequestBody → Nat → TransportOutcome RespTransaction)
          (pb : ParsedBody RespTransaction) (resp : RespTransaction) (er : RespError),
        t (builtBody "sendtoaddress" (some [.str assetID, .str toAddress, amount])) 0
          = .httpResponse 200 (.ok pb) →
        pb.modelParse = .ok resp → pb.errorParse = .ok er → er.error.message = "" →
        Client.SendToAddress c assetID toAddress amount ⟨.ok (), t⟩
          = .ok resp.result.ID) := by
  refine ⟨?_, ?_, ?_, ?_, ?_, ?_, ?_, ?_, ?_, ?_, ?_, ?_, ?_, ?_⟩
  · intro c t pb resp er ht hm he hmsg
    simp [Client.GetBestBlockHash, executeRequest, ht, hm, he, hmsg]
  · intro c hash t pb resp er ht hm he hmsg
    simp [Client.GetBlockByHash, executeRequest, ht, hm, he, hmsg]
  · intro c index t pb resp er ht hm he hmsg
    simp [Client.GetBlockByIndex, executeRequest, ht, hm, he, hmsg]
  · intro c t pb resp er ht hm he hmsg
    simp [Client.GetBlockCount, executeRequest, ht, hm, he, hmsg]
  · intro c index t pb resp er ht hm he hmsg
    simp [Client.GetBlockHash, executeRequest, ht, hm, he, hmsg]
  · intro c t pb resp er ht hm he hmsg
    simp [Client.GetConnectionCount, executeRequest, ht, hm, he, hmsg]
  · intro c scriptHash storageKey t pb resp er ht hm he hmsg
    simp [Client.GetStorage, executeRequest, ht, hm, he, hmsg]
  · intro c hash t pb resp er ht hm he hmsg
    simp [Client.GetTransaction, executeRequest, ht, hm, he, hmsg]
  · intro c hash index t pb resp er ht hm he hmsg
    simp [Client.GetTransactionOutput, executeRequest, ht, hm, he, hmsg]
  · intro c t pb resp er ht hm he hmsg
    simp [Client.GetUnconfirmedTransactions, executeRequest, ht, hm, he, hmsg]
  · intro c address t pb resp er ht hm he hmsg
    have hexec : executeRequest RespStringMap "validateaddress" (some [.str address])
        c.Node ⟨.ok (), t⟩ = .ok resp := by
      simp [executeRequest, ht, hm, he, hmsg]
    simp only [Client.ValidateAddress, hexec]
    rcases hA : resp.result.lookup "address" with _ | v
    · simp
    · cases v with
      | null => simp
      | num n => simp
      | bool b => simp
      | str r =>
        rcases hV : resp.result.lookup "isvalid" with _ | w
        · simp
        · cases w with
          | null => simp
          | num n => simp
          | str s2 => simp
          | bool b =>
            by_cases h1 : address = r <;> by_cases h2 : b = true <;>
              simp [h1, h2, eq_comm]
  · intro c assetID t pb resp er ht hm he hmsg
    simp [Client.GetBalance, executeRequest, ht, hm, he, hmsg]
  · intro c t pb resp er ht hm he hmsg
    simp [Client.GetNewAddress, executeRequest, ht, hm, he, hmsg]
  · intro c assetID toAddress amount t pb resp er ht hm he hmsg
    simp [Client.SendToAddress, executeRequest, ht, hm, he, hmsg]

/-- C6 witness: a concrete successful `GetBlockCount` returns the integer
result field, and a concrete successful `SendToAddress` returns the `ID`
field of the result transaction. -/
theorem C6_success_result_projection_witness :
    Client.GetBlockCount ⟨"http://node", ["http://node"]⟩ (intEnv 1234) = .ok 1234
    ∧ Client.SendToAddress ⟨"http://node", ["http://node"]⟩ "0xasset" "AdrQ"
        (.int 10) (okEnv RespTransaction ⟨1, "2.0", ⟨"0xtx"⟩⟩) = .ok "0xtx" :=
  ⟨C6_success_result_projection.2.2.2.1 ⟨"http://node", ["http://node"]⟩
      (intEnv 1234).transport ⟨.ok ⟨1, "2.0", 1234⟩, .ok ⟨1, "2.0", ⟨0, ""⟩⟩⟩
      ⟨1, "2.0", 1234⟩ ⟨1, "2.0", ⟨0, ""⟩⟩ rfl rfl rfl rfl,
    C6_success_result_projection.2.2.2.2.2.2.2.2.2.2.2.2.2 ⟨"http://node", ["http://node"]⟩
      "0xasset" "AdrQ" (.int 10)
      (okEnv RespTransaction ⟨1, "2.0", ⟨"0xtx"⟩⟩).transport
      ⟨.ok ⟨1, "2.0", ⟨"0xtx"⟩⟩, .ok ⟨1, "2.0", ⟨0, ""⟩⟩⟩
      ⟨1, "2.0", ⟨"0xtx"⟩⟩ ⟨1, "2.0", ⟨0, ""⟩⟩ rfl rfl rfl rfl⟩
